import Mathlib

/-!
# Verification of the LedStripsManager lighting-control hub

Shallow embedding, in Lean 4, of the parts of the repository that the
specification's claims are about:

* `Server/app/state.py`   — the shared domain state (`SharedState`), its
  device/room mutation operations, effective-value resolution and state
  versioning;
* `Server/app/planner.py` — the planner tick: T+1 timestamp computation and
  plan-window sampling with the 0–100 → 0–255 intensity scaling;
* `Server/app/udp_streamer.py` — the fast-streamer iteration (which devices
  receive a v1 datagram, and with what payload);
* `Server/app/udp_repeater.py` — per-device channel adaptation and v2 stream
  selection;
* `AudioEncoder/protocol/led_packets.py` — the LED v1/v2 wire codec.

Python `dict`s keyed by strings are modelled as insertion-ordered association
lists; machine values stay `Int`/`Nat` with explicit clamping where the code
clamps; `time.time()` values are modelled as rationals.
-/

namespace LedHub

/-- Embeds `DeviceMode` from `Server/app/state.py`. -/
inductive DeviceMode
  | STATIC
  | PLANNED
  | FAST
deriving DecidableEq, Repr

/-- Embeds `RoomControlMode` from `Server/app/state.py`. -/
inductive RoomControlMode
  | AUTO
  | MANUAL
deriving DecidableEq, Repr

/-- Embeds `FastModeType` from `Server/app/state.py`. -/
inductive FastModeType
  | INTERNAL
  | UDP_REPEATER
deriving DecidableEq, Repr

/-- Embeds `RoomControlState` from `Server/app/state.py` (the `room_name` key lives in
the association list, mirroring the `_rooms` dict). -/
structure RoomControlState where
  control_mode : RoomControlMode := RoomControlMode.MANUAL
  mode : DeviceMode := DeviceMode.STATIC
  static_values : List Int := [0, 0, 0, 0]
  planned_plan_id : Option String := none
  fast_mode_type : FastModeType := FastModeType.INTERNAL
deriving DecidableEq, Repr

/-- Embeds `DeviceState` from `Server/app/state.py`.  The fields the claims never
read (`channel_labels`, `firmware_version`) are omitted; everything else is
kept with the source's names.  `last_heartbeat` (a Python float from
`time.time()`) is modelled as a rational. -/
structure DeviceState where
  device_id : String
  room : String
  ip : String
  udp_port : Nat
  hw_mode : String
  channels : Nat
  mode : DeviceMode := DeviceMode.STATIC
  static_values : List Int := []
  fast_values : List Int := []
  planned_plan_id : Option String := none
  fast_mode_type : FastModeType := FastModeType.INTERNAL
  last_heartbeat : Rat := 0
  online : Bool := false
  error_count : Nat := 0
  reconnect_count : Nat := 0
deriving DecidableEq, Repr

/-- The mutable fields of `SharedState` from `Server/app/state.py` that the
claims touch.  `_devices` and `_rooms` are insertion-ordered dicts, modelled
as association lists. -/
structure SharedState where
  devices : List (String × DeviceState)
  rooms : List (String × RoomControlState)
  heartbeat_timeout : Rat := 10
  state_version : Nat := 0
deriving DecidableEq, Repr

/-- Embeds `max(0, min(255, v))`, the clamp used throughout the source. -/
def clamp255 (v : Int) : Int := max 0 (min 255 v)

/-- The clamp-then-resize body shared by `SharedState.set_static_values` and
`SharedState.set_fast_values`: clamp each value to [0,255], right-pad with
zeros if shorter than `channels`, truncate if longer. -/
def clampResize (values : List Int) (channels : Nat) : List Int :=
  let clamped := values.map clamp255
  if clamped.length < channels then
    clamped ++ List.replicate (channels - clamped.length) 0
  else if clamped.length > channels then
    clamped.take channels
  else
    clamped

/-- The truncate-or-zero-pad projection used by
`SharedState._apply_room_settings_to_devices` and
`SharedState.get_effective_static_values` (`values[:channels]` then extend
with zeros); no clamping here. -/
def resizeTo (values : List Int) (channels : Nat) : List Int :=
  let vs := values.take channels
  if vs.length < channels then vs ++ List.replicate (channels - vs.length) 0
  else vs

/-- Update every entry of an association list whose key is `k` (a Python dict
holds the key at most once, so this is the in-place `dict[k]` update). -/
def updateAssoc {α : Type} (l : List (String × α)) (k : String) (f : α → α) :
    List (String × α) :=
  l.map (fun p => if p.1 = k then (p.1, f p.2) else p)

namespace SharedState

/-- Embeds `self._devices.get(device_id)`. -/
def findDevice (s : SharedState) (id : String) : Option DeviceState :=
  s.devices.lookup id

/-- Embeds `self._rooms.get(room_name)`. -/
def findRoom (s : SharedState) (name : String) : Option RoomControlState :=
  s.rooms.lookup name

/-- Embeds `SharedState._apply_room_settings_to_devices`: copy the room's mode, plan
and fast-mode type onto every device of the room, and project the room's
static values truncated/zero-padded to each device's channel count.  Does not
touch the version. -/
def applyRoomSettingsToDevices (s : SharedState) (room_name : String) :
    SharedState :=
  match s.rooms.lookup room_name with
  | none => s
  | some room =>
    { s with
      devices := s.devices.map (fun p =>
        if p.2.room = room_name then
          (p.1, { p.2 with
            mode := room.mode
            planned_plan_id := room.planned_plan_id
            fast_mode_type := room.fast_mode_type
            static_values := resizeTo room.static_values p.2.channels })
        else p) }

/-- Embeds `SharedState.set_device_mode`. -/
def set_device_mode (s : SharedState) (id : String) (m : DeviceMode) :
    Bool × SharedState :=
  match s.devices.lookup id with
  | some _ =>
    (true, { s with
      devices := updateAssoc s.devices id (fun d => { d with mode := m })
      state_version := s.state_version + 1 })
  | none => (false, s)

/-- Embeds `SharedState.set_static_values`. -/
def set_static_values (s : SharedState) (id : String) (values : List Int) :
    Bool × SharedState :=
  match s.devices.lookup id with
  | some _ =>
    (true, { s with
      devices := updateAssoc s.devices id
        (fun d => { d with static_values := clampResize values d.channels })
      state_version := s.state_version + 1 })
  | none => (false, s)

/-- Embeds `SharedState.set_fast_values` (also the repeater's state write). -/
def set_fast_values (s : SharedState) (id : String) (values : List Int) :
    Bool × SharedState :=
  match s.devices.lookup id with
  | some _ =>
    (true, { s with
      devices := updateAssoc s.devices id
        (fun d => { d with fast_values := clampResize values d.channels })
      state_version := s.state_version + 1 })
  | none => (false, s)

/-- Embeds `SharedState.set_device_plan`. -/
def set_device_plan (s : SharedState) (id : String) (plan : Option String) :
    Bool × SharedState :=
  match s.devices.lookup id with
  | some _ =>
    (true, { s with
      devices := updateAssoc s.devices id
        (fun d => { d with planned_plan_id := plan })
      state_version := s.state_version + 1 })
  | none => (false, s)

/-- Embeds `SharedState.set_device_fast_mode_type`. -/
def set_device_fast_mode_type (s : SharedState) (id : String)
    (t : FastModeType) : Bool × SharedState :=
  match s.devices.lookup id with
  | some _ =>
    (true, { s with
      devices := updateAssoc s.devices id
        (fun d => { d with fast_mode_type := t })
      state_version := s.state_version + 1 })
  | none => (false, s)

/-- Embeds `SharedState.update_heartbeat`: set `last_heartbeat = now` and
`online = True`; bump the version only if the stored `online` flag was
`False`. -/
def update_heartbeat (s : SharedState) (id : String) (now : Rat) :
    Bool × SharedState :=
  match s.devices.lookup id with
  | some d =>
    let s' := { s with
      devices := updateAssoc s.devices id
        (fun d => { d with last_heartbeat := now, online := true }) }
    (true, if d.online then s' else { s' with state_version := s'.state_version + 1 })
  | none => (false, s)

/-- Embeds `SharedState.set_room_control_mode`: store the control mode, project the
room settings when switching to AUTO, then bump the version. -/
def set_room_control_mode (s : SharedState) (name : String)
    (cm : RoomControlMode) : Bool × SharedState :=
  match s.rooms.lookup name with
  | some _ =>
    let s1 := { s with
      rooms := updateAssoc s.rooms name (fun r => { r with control_mode := cm }) }
    let s2 := if cm = RoomControlMode.AUTO
      then s1.applyRoomSettingsToDevices name else s1
    (true, { s2 with state_version := s2.state_version + 1 })
  | none => (false, s)

/-- Embeds `SharedState.set_room_mode`. -/
def set_room_mode (s : SharedState) (name : String) (m : DeviceMode) :
    Bool × SharedState :=
  match s.rooms.lookup name with
  | some r =>
    let s1 := { s with
      rooms := updateAssoc s.rooms name (fun r => { r with mode := m }) }
    let s2 := if r.control_mode = RoomControlMode.AUTO
      then s1.applyRoomSettingsToDevices name else s1
    (true, { s2 with state_version := s2.state_version + 1 })
  | none => (false, s)

/-- Embeds `SharedState.set_room_static_values`: clamp (without resizing) and store;
project when the room is in AUTO. -/
def set_room_static_values (s : SharedState) (name : String)
    (values : List Int) : Bool × SharedState :=
  match s.rooms.lookup name with
  | some r =>
    let s1 := { s with
      rooms := updateAssoc s.rooms name
        (fun r => { r with static_values := values.map clamp255 }) }
    let s2 := if r.control_mode = RoomControlMode.AUTO
      then s1.applyRoomSettingsToDevices name else s1
    (true, { s2 with state_version := s2.state_version + 1 })
  | none => (false, s)

/-- Embeds `SharedState.set_room_planned_plan`. -/
def set_room_planned_plan (s : SharedState) (name : String)
    (plan : Option String) : Bool × SharedState :=
  match s.rooms.lookup name with
  | some r =>
    let s1 := { s with
      rooms := updateAssoc s.rooms name
        (fun r => { r with planned_plan_id := plan }) }
    let s2 := if r.control_mode = RoomControlMode.AUTO
      then s1.applyRoomSettingsToDevices name else s1
    (true, { s2 with state_version := s2.state_version + 1 })
  | none => (false, s)

/-- Embeds `SharedState.set_room_fast_mode_type`. -/
def set_room_fast_mode_type (s : SharedState) (name : String)
    (t : FastModeType) : Bool × SharedState :=
  match s.rooms.lookup name with
  | some r =>
    let s1 := { s with
      rooms := updateAssoc s.rooms name
        (fun r => { r with fast_mode_type := t }) }
    let s2 := if r.control_mode = RoomControlMode.AUTO
      then s1.applyRoomSettingsToDevices name else s1
    (true, { s2 with state_version := s2.state_version + 1 })
  | none => (false, s)

/-- Embeds `SharedState.get_devices_by_mode`: device ids whose (own) mode is `m`, in
dict iteration order. -/
def get_devices_by_mode (s : SharedState) (m : DeviceMode) : List String :=
  s.devices.filterMap (fun p => if p.2.mode = m then some p.1 else none)

/-- Embeds `SharedState.get_effective_mode`: the room's mode when the device's room
is in AUTO, the device's own mode otherwise; `none` when the device is
unknown. -/
def get_effective_mode (s : SharedState) (id : String) : Option DeviceMode :=
  match s.devices.lookup id with
  | none => none
  | some d =>
    match s.rooms.lookup d.room with
    | some r =>
      if r.control_mode = RoomControlMode.AUTO then some r.mode else some d.mode
    | none => some d.mode

/-- Embeds `SharedState.get_effective_static_values`. -/
def get_effective_static_values (s : SharedState) (id : String) :
    Option (List Int) :=
  match s.devices.lookup id with
  | none => none
  | some d =>
    match s.rooms.lookup d.room with
    | some r =>
      if r.control_mode = RoomControlMode.AUTO then
        some (resizeTo r.static_values d.channels)
      else some d.static_values
    | none => some d.static_values

/-- Embeds `SharedState.get_effective_planned_plan`.  The Python function collapses
"unknown device" and "no plan" into `None`; the outer `Option` here is the
unknown-device case, the inner one the plan field itself. -/
def get_effective_planned_plan (s : SharedState) (id : String) :
    Option (Option String) :=
  match s.devices.lookup id with
  | none => none
  | some d =>
    match s.rooms.lookup d.room with
    | some r =>
      if r.control_mode = RoomControlMode.AUTO then some r.planned_plan_id
      else some d.planned_plan_id
    | none => some d.planned_plan_id

/-- Embeds `SharedState.get_effective_fast_mode_type`. -/
def get_effective_fast_mode_type (s : SharedState) (id : String) :
    Option FastModeType :=
  match s.devices.lookup id with
  | none => none
  | some d =>
    match s.rooms.lookup d.room with
    | some r =>
      if r.control_mode = RoomControlMode.AUTO then some r.fast_mode_type
      else some d.fast_mode_type
    | none => some d.fast_mode_type

/-- Embeds `SharedState.get_devices_by_fast_mode_type`: ids of devices whose own mode
is FAST and whose *effective* fast-mode type is `t`. -/
def get_devices_by_fast_mode_type (s : SharedState) (t : FastModeType) :
    List String :=
  s.devices.filterMap (fun p =>
    if p.2.mode ≠ DeviceMode.FAST then none
    else
      let eff :=
        match s.rooms.lookup p.2.room with
        | some r =>
          if r.control_mode = RoomControlMode.AUTO then r.fast_mode_type
          else p.2.fast_mode_type
        | none => p.2.fast_mode_type
      if eff = t then some p.1 else none)

/-- Embeds `SharedState.get_device_plan`: the device's *own* `planned_plan_id` (this
is what the planner reads). -/
def get_device_plan (s : SharedState) (id : String) : Option (Option String) :=
  (s.devices.lookup id).map (fun d => d.planned_plan_id)

end SharedState

/-- The slice of `DeviceConfig` (`Server/app/config.py`) that
`SharedState.initialize_from_config` reads. -/
structure DeviceConfigM where
  device_id : String
  ip : String := ""
  udp_port : Nat := 5000
  hw_mode : String := "4ch_v1"
  channels : Nat
deriving DecidableEq, Repr

/-- Embeds `RoomConfig` from `Server/app/config.py`. -/
structure RoomConfigM where
  name : String
  devices : List DeviceConfigM
deriving DecidableEq, Repr

/-- Embeds `max((d.channels for d in room.devices), default=4)`. -/
def roomMaxChannels (devices : List DeviceConfigM) : Nat :=
  match devices.map (fun d => d.channels) with
  | [] => 4
  | xs => xs.foldl max 0

/-- Embeds `SharedState.initialize_from_config`: rooms get a MANUAL control state
with `[0] * max_channels` static values; devices start STATIC with zeroed
value arrays; the version is bumped once from its initial 0. -/
def initialize_from_config (cfg : List RoomConfigM) (timeout : Rat) :
    SharedState :=
  { devices := cfg.flatMap (fun r => r.devices.map (fun d =>
      (d.device_id,
        { device_id := d.device_id
          room := r.name
          ip := d.ip
          udp_port := d.udp_port
          hw_mode := d.hw_mode
          channels := d.channels
          static_values := List.replicate d.channels 0
          fast_values := List.replicate d.channels 0 : DeviceState })))
    rooms := cfg.map (fun r =>
      (r.name,
        { static_values := List.replicate (roomMaxChannels r.devices) 0 :
            RoomControlState }))
    heartbeat_timeout := timeout
    state_version := 1 }

/-- The state mutations the claims range over: the device setters,
`update_heartbeat` (with its observation time), and the room setters. -/
inductive Op
  | setDeviceMode (id : String) (m : DeviceMode)
  | setStaticValues (id : String) (values : List Int)
  | setFastValues (id : String) (values : List Int)
  | setDevicePlan (id : String) (plan : Option String)
  | setDeviceFastModeType (id : String) (t : FastModeType)
  | updateHeartbeat (id : String) (now : Rat)
  | setRoomControlMode (name : String) (cm : RoomControlMode)
  | setRoomMode (name : String) (m : DeviceMode)
  | setRoomStaticValues (name : String) (values : List Int)
  | setRoomPlannedPlan (name : String) (plan : Option String)
  | setRoomFastModeType (name : String) (t : FastModeType)
deriving DecidableEq, Repr

/-- Dispatch one operation, returning the Python method's boolean result and
the new state. -/
def stepB (s : SharedState) : Op → Bool × SharedState
  | Op.setDeviceMode id m => s.set_device_mode id m
  | Op.setStaticValues id values => s.set_static_values id values
  | Op.setFastValues id values => s.set_fast_values id values
  | Op.setDevicePlan id plan => s.set_device_plan id plan
  | Op.setDeviceFastModeType id t => s.set_device_fast_mode_type id t
  | Op.updateHeartbeat id now => s.update_heartbeat id now
  | Op.setRoomControlMode name cm => s.set_room_control_mode name cm
  | Op.setRoomMode name m => s.set_room_mode name m
  | Op.setRoomStaticValues name values => s.set_room_static_values name values
  | Op.setRoomPlannedPlan name plan => s.set_room_planned_plan name plan
  | Op.setRoomFastModeType name t => s.set_room_fast_mode_type name t

/-- One operation, state part only. -/
def step (s : SharedState) (op : Op) : SharedState := (stepB s op).2

/-- A finite sequence of operations. -/
def run (s : SharedState) (ops : List Op) : SharedState := ops.foldl step s

/-! ## Planner (`Server/app/planner.py`) -/

/-- The fields of `Plan` (`Server/app/plans_store.py`) that the planner
reads.  `save_plan` normalizes step values to integers (`int(round(v))`) and
validation bounds them to [0,100], so steps are lists of naturals here. -/
structure Plan where
  channels : Nat
  interval_ms : Nat
  steps : List (List Nat)
deriving DecidableEq, Repr

/-- Python's `int(round(v * 255 / 100))` for an integer `v`.

For integers `0 ≤ v`, the float `v * 255 / 100` is the correctly rounded
IEEE-754 double nearest to the rational `51*v/20`.  That rational is exactly
representable whenever it is a half-integer (then `5 ∣ v`, so the denominator
is a power of two), and otherwise lies at distance ≥ 1/20 from every
half-integer — far beyond the double rounding error for these magnitudes — so
Python's banker's rounding of the float agrees with round-half-to-even of the
exact rational `51*v/20`, which is what this function computes. -/
def pyRound255 (v : Nat) : Nat :=
  let q := (51 * v) / 20
  let r := (51 * v) % 20
  if r < 10 then q
  else if 10 < r then q + 1
  else if q % 2 = 0 then q else q + 1

/-- The per-step conversion in `PlannerLoop._get_plan_sequence`:
`[int(round(v * 255 / 100)) for v in raw_step]`, producing device bytes. -/
def scaleStep (step : List Nat) : List Int :=
  step.map (fun v => (pyRound255 v : Int))

/-- Embeds `PlannerLoop._get_plan_sequence` with the per-device cursor made explicit:
given `steps_per_interval`, the stored cursor and the plan, return the emitted
sequence, the plan's `interval_ms`, and the new cursor.  An empty plan yields
zero vectors and leaves the cursor untouched (the code returns before
advancing it). -/
def get_plan_sequence (steps_per_interval : Nat) (cursor : Nat) (p : Plan) :
    List (List Int) × Nat × Nat :=
  let num_plan_steps := p.steps.length
  if num_plan_steps = 0 then
    (List.replicate steps_per_interval (List.replicate p.channels 0),
      p.interval_ms, cursor)
  else
    ((List.range steps_per_interval).map (fun i =>
        scaleStep (p.steps.getD ((cursor + i) % num_plan_steps) [])),
      p.interval_ms,
      (cursor + steps_per_interval) % num_plan_steps)

/-- Embeds `PlannerLoop._generate_sequence`: repeat the target values for every step
of the interval. -/
def generate_sequence (steps_per_interval : Nat) (target : List Int) :
    List (List Int) :=
  List.replicate steps_per_interval target

/-- The window-assembly part of `PlannerLoop._publish_plan_for_device`: look
up the device, read its *own* `planned_plan_id` via
`SharedState.get_device_plan`, load the plan from the cache (modelled as a
partial map `plans`), and either sample the plan or fall back to repeating the
device's *own* `static_values` with the configured default `interval_ms`.
Returns `(sequence, interval_ms, new cursor)`. -/
def publish_plan_for_device (plans : String → Option Plan)
    (steps_per_interval default_interval_ms : Nat) (s : SharedState)
    (cursor : Nat) (id : String) : Option (List (List Int) × Nat × Nat) :=
  match s.devices.lookup id with
  | none => none
  | some d =>
    match d.planned_plan_id with
    | some plan_id =>
      match plans plan_id with
      | some p => some (get_plan_sequence steps_per_interval cursor p)
      | none =>
        some (generate_sequence steps_per_interval d.static_values,
          default_interval_ms, cursor)
    | none =>
      some (generate_sequence steps_per_interval d.static_values,
        default_interval_ms, cursor)

/-- Modelled from the spec's words, for comparison with
`publish_plan_for_device` (which is translated from the code): the same
window assembly but resolving the *effective* plan
(`get_effective_planned_plan`) and falling back to the *effective* static
values, as claim C2 describes. -/
def claimed_publish_plan_for_device (plans : String → Option Plan)
    (steps_per_interval default_interval_ms : Nat) (s : SharedState)
    (cursor : Nat) (id : String) : Option (List (List Int) × Nat × Nat) :=
  match s.get_effective_planned_plan id, s.get_effective_static_values id with
  | some (some plan_id), some eff_static =>
    match plans plan_id with
    | some p => some (get_plan_sequence steps_per_interval cursor p)
    | none =>
      some (generate_sequence steps_per_interval eff_static,
        default_interval_ms, cursor)
  | some none, some eff_static =>
    some (generate_sequence steps_per_interval eff_static,
      default_interval_ms, cursor)
  | _, _ => none

/-- The T+1 computation in `PlannerLoop._process_planned_devices`:
`math.ceil(current_time / interval) * interval + interval`, followed by
`int(...)` (a no-op, the value is already an integer).  `current_time` is a
`time.time()` float, modelled as a rational. -/
def planner_timestamp (now : Rat) (interval : Int) : Int :=
  ⌈now / (interval : Rat)⌉ * interval + interval

/-- What claim C9 calls "the next boundary on the `interval_sec` grid strictly
after `now`": the least multiple of `interval` strictly greater than `now`. -/
def IsNextBoundaryAfter (now : Rat) (interval t : Int) : Prop :=
  interval ∣ t ∧ now < (t : Rat) ∧
    ∀ u : Int, interval ∣ u → now < (u : Rat) → t ≤ u

/-! ## Wire codec (`AudioEncoder/protocol/led_packets.py`) -/

/-- Embeds `StreamID` from `led_packets.py` / `udp_repeater.py`. -/
inductive StreamID
  | CH4_V1
  | CH2_V1
  | RGB_V1
deriving DecidableEq, Repr

/-- The wire byte of a `StreamID` (`int(stream_id)`). -/
def StreamID.toNat : StreamID → Nat
  | StreamID.CH4_V1 => 1
  | StreamID.CH2_V1 => 2
  | StreamID.RGB_V1 => 3

/-- Embeds `StreamID(raw)` with `ValueError` as `none`. -/
def streamIdOfNat (raw : Nat) : Option StreamID :=
  if raw = 1 then some StreamID.CH4_V1
  else if raw = 2 then some StreamID.CH2_V1
  else if raw = 3 then some StreamID.RGB_V1
  else none

/-- Embeds `build_led_v1_packet` (and the identical `_build_packet` of the streamer
and repeater): `b"LED" + [1] + [len(values)] + clamped values`.  Bytes are
naturals; the packet is a valid byte string when `values.length ≤ 255`, the
domain on which the Python `bytearray.append` does not raise. -/
def build_led_v1_packet (values : List Int) : List Nat :=
  76 :: 69 :: 68 :: 1 :: values.length ::
    values.map (fun v => (clamp255 v).toNat)

/-- Embeds `build_led_v2_packet`: header, version 2, stream count, then one block
`[stream_id, len(values)] + clamped values` per dict entry in insertion
order. -/
def build_led_v2_packet (streams : List (StreamID × List Int)) : List Nat :=
  76 :: 69 :: 68 :: 2 :: streams.length ::
    streams.flatMap (fun p =>
      p.1.toNat :: p.2.length :: p.2.map (fun v => (clamp255 v).toNat))

/-- The decoder's structured result (`{"version": 1, "values": …}` or
`{"version": 2, "streams": …}`); decoded values are raw bytes. -/
inductive ParsedPacket
  | v1 (values : List Nat)
  | v2 (streams : List (StreamID × List Nat))
deriving DecidableEq, Repr

/-- Python-dict insertion: replace in place when the key exists, append
otherwise. -/
def dictInsert (l : List (StreamID × List Nat)) (k : StreamID)
    (v : List Nat) : List (StreamID × List Nat) :=
  if l.any (fun p => p.1 = k) then
    l.map (fun p => if p.1 = k then (k, v) else p)
  else l ++ [(k, v)]

/-- The v2 stream-block loop of `parse_led_packet`: for each of the declared
blocks read `stream_id` and `num_channels`, fail (`None`) on truncation,
skip unknown stream ids while still consuming the block. -/
def parseV2Loop : Nat → List Nat → List (StreamID × List Nat) →
    Option (List (StreamID × List Nat))
  | 0, _, acc => some acc
  | n + 1, rest, acc =>
    match rest with
    | sid :: cnt :: rest2 =>
      if rest2.length < cnt then none
      else
        let acc' :=
          match streamIdOfNat sid with
          | some k => dictInsert acc k (rest2.take cnt)
          | none => acc
        parseV2Loop n (rest2.drop cnt) acc'
    | _ => none

/-- Embeds `parse_led_packet`: reject packets shorter than 6 bytes or without the
`LED` header; dispatch on the version byte; v1 demands at least the declared
channel count (extra bytes beyond it are ignored). -/
def parse_led_packet (data : List Nat) : Option ParsedPacket :=
  match data with
  | 76 :: 69 :: 68 :: ver :: cnt :: rest =>
    if rest.isEmpty then none
    else if ver = 1 then
      if rest.length < cnt then none
      else some (ParsedPacket.v1 (rest.take cnt))
    else if ver = 2 then
      (parseV2Loop cnt rest []).map ParsedPacket.v2
    else none
  | _ => none

/-- Re-encode a decoded packet with the corresponding builder. -/
def encode_parsed : ParsedPacket → List Nat
  | ParsedPacket.v1 values => build_led_v1_packet (values.map Int.ofNat)
  | ParsedPacket.v2 streams =>
    build_led_v2_packet (streams.map (fun p => (p.1, p.2.map Int.ofNat)))

/-- A byte string matching the v1 wire grammar of §4.A: header, version 1,
a channel count equal to the length of the value bytes that follow. -/
def IsV1Packet (data : List Nat) : Prop :=
  ∃ values : List Nat, (∀ b ∈ values, b < 256) ∧ values.length ≤ 255 ∧
    data = 76 :: 69 :: 68 :: 1 :: values.length :: values

/-- A byte string matching the v2 wire grammar of §4.A: header, version 2, a
stream count, then that many blocks of `stream_id, channel count, values`. -/
def IsV2Packet (data : List Nat) : Prop :=
  ∃ blocks : List (Nat × List Nat),
    (∀ p ∈ blocks, p.1 < 256 ∧ p.2.length ≤ 255 ∧ ∀ b ∈ p.2, b < 256) ∧
    blocks.length ≤ 255 ∧
    data = 76 :: 69 :: 68 :: 2 :: blocks.length ::
      blocks.flatMap (fun p => p.1 :: p.2.length :: p.2)

/-! ## Fast streamer (`Server/app/udp_streamer.py`) -/

/-- The device-selection step of `UdpStreamer._send_fast_updates`: the ids the
iteration sends a datagram to are exactly `get_devices_by_mode(FAST)`. -/
def streamer_targets (s : SharedState) : List String :=
  s.get_devices_by_mode DeviceMode.FAST

/-- The payload of `UdpStreamer._send_to_device`: the v1 packet built from the
device's `fast_values`, with the falsy-list fallback to
`[0] * device.channels`. -/
def streamer_packet (s : SharedState) (id : String) : Option (List Nat) :=
  match s.devices.lookup id with
  | none => none
  | some d =>
    let values := if d.fast_values.isEmpty
      then List.replicate d.channels 0 else d.fast_values
    some (build_led_v1_packet values)

/-! ## UDP repeater (`Server/app/udp_repeater.py`) -/

/-- Embeds `UdpRepeater._adapt_channels`: for a `2ch_v1` device fed ≥ 4 channels,
combine the 4ch_v1 G,Y,B,R layout as `[max(R,Y), max(G,B)]`; otherwise
truncate or right-zero-pad to the target channel count. -/
def adapt_channels (input_values : List Int) (target_channels : Nat)
    (hw_mode : String) : List Int :=
  if hw_mode = "2ch_v1" ∧ 4 ≤ input_values.length then
    [max (input_values.getD 3 0) (input_values.getD 1 0),
     max (input_values.getD 0 0) (input_values.getD 2 0)]
  else if target_channels ≤ input_values.length then
    input_values.take target_channels
  else
    input_values ++ List.replicate (target_channels - input_values.length) 0

/-- Embeds `HW_MODE_TO_STREAM_ID.get(hw_mode)`. -/
def hwModeToStreamId (hw_mode : String) : Option StreamID :=
  if hw_mode = "4ch_v1" then some StreamID.CH4_V1
  else if hw_mode = "2ch_v1" then some StreamID.CH2_V1
  else if hw_mode = "rgb_v1" then some StreamID.RGB_V1
  else none

/-- Embeds `UdpRepeater._select_stream_for_device`: exact hw-mode match (adapted only
when lengths differ), then the `4ch_v1` stream adapted, then the first stream
in iteration order adapted, then zeros. -/
def select_stream_for_device (streams : List (StreamID × List Nat))
    (hw_mode : String) (device_channels : Nat) : List Int :=
  match (hwModeToStreamId hw_mode).bind (fun t => (streams.lookup t).map (t, ·)) with
  | some (_, values) =>
    let values : List Int := values.map Int.ofNat
    if values.length ≠ device_channels then
      adapt_channels values device_channels hw_mode
    else values
  | none =>
    match streams.lookup StreamID.CH4_V1 with
    | some values => adapt_channels (values.map Int.ofNat) device_channels hw_mode
    | none =>
      match streams with
      | (_, first_values) :: _ =>
        adapt_channels (first_values.map Int.ofNat) device_channels hw_mode
      | [] => List.replicate device_channels 0

/-! ## Concrete example inputs used by counterexamples and witnesses -/

/-- A one-room, one-device configuration: device `A`, `2ch_v1`, 2 channels. -/
def cfgA : List RoomConfigM := [⟨"R", [⟨"A", "", 5000, "2ch_v1", 2⟩]⟩]

/-- Device `A` switched to FAST with `fast_mode_type = UDP_REPEATER` while its
room stays MANUAL. -/
def sFast : SharedState :=
  run (initialize_from_config cfgA 10)
    [Op.setDeviceMode "A" DeviceMode.FAST,
     Op.setDeviceFastModeType "A" FastModeType.UDP_REPEATER]

/-- The state after device `A` received a heartbeat at time 5 (so it is
online and the version was bumped for the offline→online transition). -/
def sHb : SharedState :=
  step (initialize_from_config cfgA 10) (Op.updateHeartbeat "A" 5)

/-- A one-room, one-device configuration: device `X`, `4ch_v1`, 4 channels. -/
def cfgX : List RoomConfigM := [⟨"R", [⟨"X", "", 5000, "4ch_v1", 4⟩]⟩]

/-- Room `R` in AUTO with room plan `a`, after which the device-level plan of
`X` was set to `b`: the effective plan is `a`, the device's own plan `b`. -/
def sAuto : SharedState :=
  run (initialize_from_config cfgX 10)
    [Op.setRoomControlMode "R" RoomControlMode.AUTO,
     Op.setRoomPlannedPlan "R" (some "a"),
     Op.setDevicePlan "X" (some "b")]

/-- A plan store holding plan `a` (all channels at intensity 100, 100 ms) and
plan `b` (all channels at 0, 200 ms). -/
def plansAB : String → Option Plan := fun plan_id =>
  if plan_id = "a" then some ⟨4, 100, [[100, 100, 100, 100]]⟩
  else if plan_id = "b" then some ⟨4, 200, [[0, 0, 0, 0]]⟩
  else none

/-- The three-step wrap-around plan of spec §8 scenario 2. -/
def planWrap : Plan := ⟨4, 100, [[0, 0, 0, 0], [50, 0, 0, 0], [100, 0, 0, 0]]⟩

/-- A v2 packet whose first stream block carries the unknown stream id 9
(1 channel, value 7) followed by a `4ch_v1` block. -/
def pktUnknownStream : List Nat := [76, 69, 68, 2, 2, 9, 1, 7, 1, 4, 10, 20, 30, 40]

/-- What `pktUnknownStream` re-encodes to after decoding: the unknown block is
gone and the stream count says 1. -/
def pktUnknownStreamReenc : List Nat := [76, 69, 68, 2, 1, 1, 4, 10, 20, 30, 40]

/-- The device record of `A` after `set_static_values("A", [300, -5, 7])` on
the freshly initialized `cfgA` state (input clamped to `[255, 0, 7]` and then
truncated to the 2 channels). -/
def devW : DeviceState :=
  { device_id := "A", room := "R", ip := "", udp_port := 5000,
    hw_mode := "2ch_v1", channels := 2, static_values := [255, 0],
    fast_values := [0, 0] }

/-- The device record of `X` inside `sAuto`. -/
def devX : DeviceState :=
  { device_id := "X", room := "R", ip := "", udp_port := 5000,
    hw_mode := "4ch_v1", channels := 4, static_values := [0, 0, 0, 0],
    fast_values := [0, 0, 0, 0], planned_plan_id := some "b" }

/-- The room record of `R` inside `sAuto`. -/
def roomR : RoomControlState :=
  { control_mode := RoomControlMode.AUTO, static_values := [0, 0, 0, 0],
    planned_plan_id := some "a" }

/-- Does `op` address a device id / room name that `s` does not know? -/
@[reducible] def opTargetsUnknown (s : SharedState) : Op → Prop
  | Op.setDeviceMode id _ => s.devices.lookup id = none
  | Op.setStaticValues id _ => s.devices.lookup id = none
  | Op.setFastValues id _ => s.devices.lookup id = none
  | Op.setDevicePlan id _ => s.devices.lookup id = none
  | Op.setDeviceFastModeType id _ => s.devices.lookup id = none
  | Op.updateHeartbeat id _ => s.devices.lookup id = none
  | Op.setRoomControlMode name _ => s.rooms.lookup name = none
  | Op.setRoomMode name _ => s.rooms.lookup name = none
  | Op.setRoomStaticValues name _ => s.rooms.lookup name = none
  | Op.setRoomPlannedPlan name _ => s.rooms.lookup name = none
  | Op.setRoomFastModeType name _ => s.rooms.lookup name = none

/-- Spec §3 invariant 1, per device: both value arrays have exactly
`channels` entries, all in [0,255]. -/
@[reducible] def DeviceInv (d : DeviceState) : Prop :=
  d.static_values.length = d.channels ∧ d.fast_values.length = d.channels ∧
  (∀ v ∈ d.static_values, 0 ≤ v ∧ v ≤ 255) ∧
  (∀ v ∈ d.fast_values, 0 ≤ v ∧ v ≤ 255)

/-- The room-side invariant needed to propagate `DeviceInv` through AUTO
projection: room static values are bytes. -/
@[reducible] def RoomInv (r : RoomControlState) : Prop :=
  ∀ v ∈ r.static_values, 0 ≤ v ∧ v ≤ 255

/-- Embeds `DeviceInv` for every device and `RoomInv` for every room. -/
@[reducible] def StateInv (s : SharedState) : Prop :=
  (∀ p ∈ s.devices, DeviceInv p.2) ∧ (∀ p ∈ s.rooms, RoomInv p.2)

end LedHub

/-! # Theorems -/

namespace LedHub

/-! ## Helper lemmas -/

theorem clamp255_nonneg (v : Int) : 0 ≤ clamp255 v := le_max_left 0 _

theorem clamp255_le (v : Int) : clamp255 v ≤ 255 := by
  unfold clamp255; omega

theorem clamp255_of_byte (v : Int) (h0 : 0 ≤ v) (h255 : v ≤ 255) :
    clamp255 v = v := by
  unfold clamp255; omega

theorem clampResize_length (values : List Int) (channels : Nat) :
    (clampResize values channels).length = channels := by
  simp only [clampResize]
  split
  · simp only [List.length_append, List.length_replicate, List.length_map] at *
    omega
  · split
    · simp only [List.length_take, List.length_map] at *
      omega
    · simp only [List.length_map] at *
      omega

theorem clampResize_mem (values : List Int) (channels : Nat) (v : Int)
    (h : v ∈ clampResize values channels) : 0 ≤ v ∧ v ≤ 255 := by
  simp only [clampResize] at h
  split at h
  · rcases List.mem_append.mp h with h' | h'
    · obtain ⟨w, _, rfl⟩ := List.mem_map.mp h'
      exact ⟨clamp255_nonneg w, clamp255_le w⟩
    · rcases List.eq_of_mem_replicate h' with rfl
      exact ⟨le_refl 0, by norm_num⟩
  · split at h
    · obtain ⟨w, _, rfl⟩ := List.mem_map.mp (List.mem_of_mem_take h)
      exact ⟨clamp255_nonneg w, clamp255_le w⟩
    · obtain ⟨w, _, rfl⟩ := List.mem_map.mp h
      exact ⟨clamp255_nonneg w, clamp255_le w⟩

theorem resizeTo_length (values : List Int) (channels : Nat) :
    (resizeTo values channels).length = channels := by
  simp only [resizeTo]
  split
  · simp only [List.length_append, List.length_replicate, List.length_take] at *
    omega
  · simp only [List.length_take] at *
    omega

theorem resizeTo_mem (values : List Int) (channels : Nat) (v : Int)
    (h : v ∈ resizeTo values channels) : v ∈ values ∨ v = 0 := by
  simp only [resizeTo] at h
  split at h
  · rcases List.mem_append.mp h with h' | h'
    · exact Or.inl (List.mem_of_mem_take h')
    · exact Or.inr (List.eq_of_mem_replicate h')
  · exact Or.inl (List.mem_of_mem_take h)

theorem lookup_mem {α : Type} :
    ∀ (l : List (String × α)) (k : String) (v : α),
      l.lookup k = some v → (k, v) ∈ l
  | [], k, v => by simp [List.lookup]
  | (a, b) :: t, k, v => by
    intro h
    rw [List.lookup] at h
    by_cases hk : k = a
    · subst hk
      simp only [beq_self_eq_true] at h
      obtain rfl := Option.some.inj h
      exact List.mem_cons_self _ _
    · rw [beq_eq_false_iff_ne.mpr hk] at h
      simp only [] at h
      exact List.mem_cons_of_mem _ (lookup_mem t k v h)

theorem mem_lookup_of_nodup {α : Type} :
    ∀ (l : List (String × α)), (l.map Prod.fst).Nodup → ∀ (k : String) (v : α),
      (k, v) ∈ l → l.lookup k = some v
  | [], _, k, v => by simp
  | (a, b) :: t, hnd, k, v => by
    intro hmem
    rw [List.map_cons, List.nodup_cons] at hnd
    rcases List.mem_cons.mp hmem with h | h
    · obtain ⟨rfl, rfl⟩ := Prod.mk.injEq .. ▸ h
      rw [List.lookup]
      simp
    · have hk : k ≠ a := by
        rintro rfl
        exact hnd.1 (List.mem_map.mpr ⟨(k, v), h, rfl⟩)
      rw [List.lookup, beq_eq_false_iff_ne.mpr hk]
      exact mem_lookup_of_nodup t hnd.2 k v h

theorem lookup_eq_some_iff_of_nodup {α : Type} (l : List (String × α))
    (hnd : (l.map Prod.fst).Nodup) (k : String) (v : α) :
    l.lookup k = some v ↔ (k, v) ∈ l :=
  ⟨lookup_mem l k v, mem_lookup_of_nodup l hnd k v⟩

theorem lookup_updateAssoc {α : Type} (l : List (String × α)) (k : String)
    (f : α → α) : (updateAssoc l k f).lookup k = (l.lookup k).map f := by
  induction l with
  | nil => rfl
  | cons p t ih =>
    obtain ⟨a, b⟩ := p
    by_cases hk : a = k
    · subst hk
      have h1 : updateAssoc ((a, b) :: t) a f = (a, f b) :: updateAssoc t a f := by
        simp [updateAssoc]
      rw [h1, List.lookup, List.lookup]
      simp only [beq_self_eq_true]
      rfl
    · simp only [updateAssoc, List.map_cons, if_neg hk] at *
      rw [List.lookup, List.lookup, beq_eq_false_iff_ne.mpr (Ne.symm hk)]
      exact ih

/-! ## Claim C7 — repeater channel adaptation -/

/-- C7 (confirmed): `UdpRepeater._adapt_channels` maps a source vector
`G :: Y :: B :: R :: rest` (the 4ch_v1 order) for a `2ch_v1` device to
`[max R Y, max G B]`; in every other case it truncates the source to the
target channel count when it is at least as long, and right-zero-pads it when
it is shorter. -/
theorem adapt_channels_spec (input : List Int) (target : Nat) (hw : String) :
    (∀ g y b r rest, input = g :: y :: b :: r :: rest → hw = "2ch_v1" →
      adapt_channels input target hw = [max r y, max g b]) ∧
    (¬(hw = "2ch_v1" ∧ 4 ≤ input.length) →
      (target ≤ input.length →
        adapt_channels input target hw = input.take target) ∧
      (input.length < target →
        adapt_channels input target hw =
          input ++ List.replicate (target - input.length) 0)) := by
  constructor
  · rintro g y b r rest rfl rfl
    rw [adapt_channels, if_pos ⟨rfl, by simp⟩]
    simp [List.getD]
  · intro hno
    rw [adapt_channels, if_neg hno]
    constructor
    · intro hlen
      rw [if_pos hlen]
    · intro hlen
      rw [if_neg (not_le.mpr hlen)]

/-- Spec §8 scenario 1 as a witness: the `4ch_v1` values G=16, Y=32, B=48,
R=64 adapt for a 2-channel `2ch_v1` device to `[max 64 32, max 16 48]`
(= `[64, 48]`). -/
theorem adapt_channels_spec_witness :
    adapt_channels [16, 32, 48, 64] 2 "2ch_v1" = [max 64 32, max 16 48] :=
  (adapt_channels_spec [16, 32, 48, 64] 2 "2ch_v1").1 16 32 48 64 [] rfl rfl

/-! ## Claim C10 — mutations with unknown targets -/

/-- C10 (confirmed): every device setter, `update_heartbeat`, and every room
setter returns `False` and leaves the whole state (devices, rooms, version)
unchanged when its device id / room name is unknown. -/
theorem unknown_target_noop (s : SharedState) (op : Op)
    (h : opTargetsUnknown s op) : stepB s op = (false, s) := by
  cases op with
  | setDeviceMode id m =>
    simp only [opTargetsUnknown] at h
    simp [stepB, SharedState.set_device_mode, h]
  | setStaticValues id values =>
    simp only [opTargetsUnknown] at h
    simp [stepB, SharedState.set_static_values, h]
  | setFastValues id values =>
    simp only [opTargetsUnknown] at h
    simp [stepB, SharedState.set_fast_values, h]
  | setDevicePlan id plan =>
    simp only [opTargetsUnknown] at h
    simp [stepB, SharedState.set_device_plan, h]
  | setDeviceFastModeType id t =>
    simp only [opTargetsUnknown] at h
    simp [stepB, SharedState.set_device_fast_mode_type, h]
  | updateHeartbeat id now =>
    simp only [opTargetsUnknown] at h
    simp [stepB, SharedState.update_heartbeat, h]
  | setRoomControlMode name cm =>
    simp only [opTargetsUnknown] at h
    simp [stepB, SharedState.set_room_control_mode, h]
  | setRoomMode name m =>
    simp only [opTargetsUnknown] at h
    simp [stepB, SharedState.set_room_mode, h]
  | setRoomStaticValues name values =>
    simp only [opTargetsUnknown] at h
    simp [stepB, SharedState.set_room_static_values, h]
  | setRoomPlannedPlan name plan =>
    simp only [opTargetsUnknown] at h
    simp [stepB, SharedState.set_room_planned_plan, h]
  | setRoomFastModeType name t =>
    simp only [opTargetsUnknown] at h
    simp [stepB, SharedState.set_room_fast_mode_type, h]

/-- Witness for C10: setting the mode of the unknown device `ghost` on the
concrete state `sFast` is a no-op returning `False`. -/
theorem unknown_target_noop_witness :
    stepB sFast (Op.setDeviceMode "ghost" DeviceMode.FAST) = (false, sFast) :=
  unknown_target_noop sFast (Op.setDeviceMode "ghost" DeviceMode.FAST)
    (by decide)

/-! ## Claim C9 — the planner's T+1 timestamp -/

/-- C9 counterexample: at `now = 1`, `interval_sec = 2` the code computes
`ceil(1/2)*2 + 2 = 4`, but the next boundary of the 2-second grid strictly
after 1 is 2, not 4 — so the claim's "is the next boundary … strictly after
now" is false of the computed timestamp. -/
theorem planner_timestamp_counterexample :
    planner_timestamp 1 2 = 4 ∧ IsNextBoundaryAfter 1 2 2 ∧
      ¬ IsNextBoundaryAfter 1 2 (planner_timestamp 1 2) := by
  have hts : planner_timestamp 1 2 = 4 := by
    have hc : ⌈(1 : Rat) / ((2 : Int) : Rat)⌉ = 1 := by
      rw [Int.ceil_eq_iff]
      norm_num
    unfold planner_timestamp
    rw [hc]
    norm_num
  refine ⟨hts, ⟨⟨1, by norm_num⟩, by norm_num, ?_⟩, ?_⟩
  · intro u _ hu
    have h1 : (1 : Int) < u := by exact_mod_cast hu
    omega
  · rw [hts]
    rintro ⟨-, -, hmin⟩
    have h2 := hmin 2 ⟨1, by norm_num⟩ (by norm_num)
    omega

/-- C9 (corrected): the planner's T+1 timestamp equals
`ceil(now/interval)*interval + interval` (already whole seconds), is a grid
multiple strictly after `now`, and is the *least* grid boundary at least one
full interval after `now` — in general the second, not the first, boundary
after `now`. -/
theorem planner_timestamp_spec (now : Rat) (interval : Int)
    (_hnow : 0 < now) (hi : 0 < interval) :
    planner_timestamp now interval
        = ⌈now / (interval : Rat)⌉ * interval + interval ∧
    interval ∣ planner_timestamp now interval ∧
    now < ((planner_timestamp now interval : Int) : Rat) ∧
    now + (interval : Rat) ≤ ((planner_timestamp now interval : Int) : Rat) ∧
    ∀ u : Int, interval ∣ u → now + (interval : Rat) ≤ (u : Rat) →
      planner_timestamp now interval ≤ u := by
  have hipos : (0 : Rat) < (interval : Rat) := by exact_mod_cast hi
  have hceil : now / (interval : Rat) ≤ (⌈now / (interval : Rat)⌉ : Rat) :=
    Int.le_ceil _
  have hbase : now ≤ (⌈now / (interval : Rat)⌉ : Rat) * (interval : Rat) :=
    (div_le_iff₀ hipos).mp hceil
  have hle : now + (interval : Rat)
      ≤ ((planner_timestamp now interval : Int) : Rat) := by
    unfold planner_timestamp
    push_cast
    linarith
  refine ⟨rfl, ⟨⌈now / (interval : Rat)⌉ + 1, by unfold planner_timestamp; ring⟩,
    by linarith, hle, ?_⟩
  rintro u ⟨c, rfl⟩ hu
  have h2 : now / (interval : Rat) ≤ ((c - 1 : Int) : Rat) := by
    rw [div_le_iff₀ hipos]
    push_cast at hu ⊢
    linarith
  have h3 : ⌈now / (interval : Rat)⌉ ≤ c - 1 := Int.ceil_le.mpr h2
  unfold planner_timestamp
  calc ⌈now / (interval : Rat)⌉ * interval + interval
      ≤ (c - 1) * interval + interval := by
        have h4 := mul_le_mul_of_nonneg_right h3 (le_of_lt hi)
        linarith
    _ = interval * c := by ring

/-- Witness for C9 (corrected) at `now = 1`, `interval = 2`: the timestamp is
a multiple of 2 lying at least one full interval after `now`. -/
theorem planner_timestamp_spec_witness :
    (2 : Int) ∣ planner_timestamp 1 2 ∧
      (1 : Rat) + ((2 : Int) : Rat) ≤ ((planner_timestamp 1 2 : Int) : Rat) :=
  ⟨(planner_timestamp_spec 1 2 one_pos two_pos).2.1,
    (planner_timestamp_spec 1 2 one_pos two_pos).2.2.2.1⟩

/-! ## Claim C3 — state versioning -/

theorem applyRoom_version (s : SharedState) (name : String) :
    (s.applyRoomSettingsToDevices name).state_version = s.state_version := by
  unfold SharedState.applyRoomSettingsToDevices
  split <;> rfl

/-- C3 counterexample: on the concrete state `sHb` (device `A` online after a
heartbeat at time 5), a second heartbeat at time 7 changes the
operator-visible snapshot field `last_heartbeat` but leaves the state version
unchanged — so not every mutation affecting an operator-visible field
increments the version, and `update_heartbeat` on a known device in
particular does not. -/
theorem heartbeat_version_not_bumped_when_online :
    ((step sHb (Op.updateHeartbeat "A" 7)).devices.lookup "A").map
        DeviceState.last_heartbeat ≠
      (sHb.devices.lookup "A").map DeviceState.last_heartbeat ∧
    (step sHb (Op.updateHeartbeat "A" 7)).state_version = sHb.state_version := by
  constructor
  · decide
  · decide

/-- C3 (corrected): the state version never decreases and each mutation
increments it by at most one; a device or room setter on a known target
increments it exactly once (so the version is a monotone counter), but
`update_heartbeat` on a known device increments it only when the stored
`online` flag was `False` — while still overwriting the operator-visible
`last_heartbeat` field unconditionally. -/
theorem version_mutation_contract :
    (∀ (s : SharedState) (op : Op),
      s.state_version ≤ (step s op).state_version ∧
      (step s op).state_version ≤ s.state_version + 1) ∧
    (∀ (s : SharedState) (op : Op), ¬ opTargetsUnknown s op →
      (∀ id now, op ≠ Op.updateHeartbeat id now) →
      (step s op).state_version = s.state_version + 1) ∧
    (∀ (s : SharedState) (id : String) (now : Rat) (d : DeviceState),
      s.devices.lookup id = some d →
      (step s (Op.updateHeartbeat id now)).state_version =
        (if d.online then s.state_version else s.state_version + 1) ∧
      ((step s (Op.updateHeartbeat id now)).devices.lookup id).map
          DeviceState.last_heartbeat = some now) := by
  refine ⟨?_, ?_, ?_⟩
  · intro s op
    cases op with
    | setDeviceMode id m =>
      simp only [step, stepB, SharedState.set_device_mode]
      rcases hlu : s.devices.lookup id with _ | d <;> simp [hlu]
    | setStaticValues id values =>
      simp only [step, stepB, SharedState.set_static_values]
      rcases hlu : s.devices.lookup id with _ | d <;> simp [hlu]
    | setFastValues id values =>
      simp only [step, stepB, SharedState.set_fast_values]
      rcases hlu : s.devices.lookup id with _ | d <;> simp [hlu]
    | setDevicePlan id plan =>
      simp only [step, stepB, SharedState.set_device_plan]
      rcases hlu : s.devices.lookup id with _ | d <;> simp [hlu]
    | setDeviceFastModeType id t =>
      simp only [step, stepB, SharedState.set_device_fast_mode_type]
      rcases hlu : s.devices.lookup id with _ | d <;> simp [hlu]
    | updateHeartbeat id now =>
      simp only [step, stepB, SharedState.update_heartbeat]
      rcases hlu : s.devices.lookup id with _ | d <;> simp [hlu]
      split <;> simp
    | setRoomControlMode name cm =>
      simp only [step, stepB, SharedState.set_room_control_mode]
      rcases hlu : s.rooms.lookup name with _ | r <;> simp [hlu]
      split <;> simp [applyRoom_version]
    | setRoomMode name m =>
      simp only [step, stepB, SharedState.set_room_mode]
      rcases hlu : s.rooms.lookup name with _ | r <;> simp [hlu]
      split <;> simp [applyRoom_version]
    | setRoomStaticValues name values =>
      simp only [step, stepB, SharedState.set_room_static_values]
      rcases hlu : s.rooms.lookup name with _ | r <;> simp [hlu]
      split <;> simp [applyRoom_version]
    | setRoomPlannedPlan name plan =>
      simp only [step, stepB, SharedState.set_room_planned_plan]
      rcases hlu : s.rooms.lookup name with _ | r <;> simp [hlu]
      split <;> simp [applyRoom_version]
    | setRoomFastModeType name t =>
      simp only [step, stepB, SharedState.set_room_fast_mode_type]
      rcases hlu : s.rooms.lookup name with _ | r <;> simp [hlu]
      split <;> simp [applyRoom_version]
  · intro s op hknown hnoths
    cases op with
    | setDeviceMode id m =>
      simp only [opTargetsUnknown] at hknown
      simp only [step, stepB, SharedState.set_device_mode]
      rcases hlu : s.devices.lookup id with _ | d
      · exact absurd hlu hknown
      · simp [hlu]
    | setStaticValues id values =>
      simp only [opTargetsUnknown] at hknown
      simp only [step, stepB, SharedState.set_static_values]
      rcases hlu : s.devices.lookup id with _ | d
      · exact absurd hlu hknown
      · simp [hlu]
    | setFastValues id values =>
      simp only [opTargetsUnknown] at hknown
      simp only [step, stepB, SharedState.set_fast_values]
      rcases hlu : s.devices.lookup id with _ | d
      · exact absurd hlu hknown
      · simp [hlu]
    | setDevicePlan id plan =>
      simp only [opTargetsUnknown] at hknown
      simp only [step, stepB, SharedState.set_device_plan]
      rcases hlu : s.devices.lookup id with _ | d
      · exact absurd hlu hknown
      · simp [hlu]
    | setDeviceFastModeType id t =>
      simp only [opTargetsUnknown] at hknown
      simp only [step, stepB, SharedState.set_device_fast_mode_type]
      rcases hlu : s.devices.lookup id with _ | d
      · exact absurd hlu hknown
      · simp [hlu]
    | updateHeartbeat id now => exact absurd rfl (hnoths id now)
    | setRoomControlMode name cm =>
      simp only [opTargetsUnknown] at hknown
      simp only [step, stepB, SharedState.set_room_control_mode]
      rcases hlu : s.rooms.lookup name with _ | r
      · exact absurd hlu hknown
      · simp only [hlu]
        split <;> simp [applyRoom_version]
    | setRoomMode name m =>
      simp only [opTargetsUnknown] at hknown
      simp only [step, stepB, SharedState.set_room_mode]
      rcases hlu : s.rooms.lookup name with _ | r
      · exact absurd hlu hknown
      · simp only [hlu]
        split <;> simp [applyRoom_version]
    | setRoomStaticValues name values =>
      simp only [opTargetsUnknown] at hknown
      simp only [step, stepB, SharedState.set_room_static_values]
      rcases hlu : s.rooms.lookup name with _ | r
      · exact absurd hlu hknown
      · simp only [hlu]
        split <;> simp [applyRoom_version]
    | setRoomPlannedPlan name plan =>
      simp only [opTargetsUnknown] at hknown
      simp only [step, stepB, SharedState.set_room_planned_plan]
      rcases hlu : s.rooms.lookup name with _ | r
      · exact absurd hlu hknown
      · simp only [hlu]
        split <;> simp [applyRoom_version]
    | setRoomFastModeType name t =>
      simp only [opTargetsUnknown] at hknown
      simp only [step, stepB, SharedState.set_room_fast_mode_type]
      rcases hlu : s.rooms.lookup name with _ | r
      · exact absurd hlu hknown
      · simp only [hlu]
        split <;> simp [applyRoom_version]
  · intro s id now d hlu
    simp only [step, stepB, SharedState.update_heartbeat, hlu]
    constructor
    · split <;> rfl
    · have hmap := lookup_updateAssoc s.devices id
        (fun d => { d with last_heartbeat := now, online := true })
      split <;> simp [hmap, hlu]

/-- Witness for C3 (corrected) on the concrete online device `A` of `sHb`:
the version stays at `sHb.state_version` and `last_heartbeat` becomes 7. -/
theorem version_mutation_contract_witness :
    (step sHb (Op.updateHeartbeat "A" 7)).state_version =
      (if true then sHb.state_version else sHb.state_version + 1) ∧
    ((step sHb (Op.updateHeartbeat "A" 7)).devices.lookup "A").map
        DeviceState.last_heartbeat = some 7 := by
  have h := version_mutation_contract.2.2 sHb "A" 7
    { device_id := "A", room := "R", ip := "", udp_port := 5000,
      hw_mode := "2ch_v1", channels := 2, static_values := [0, 0],
      fast_values := [0, 0], last_heartbeat := 5, online := true }
    (by decide)
  exact h

/-! ## Claim C5 — effective-value resolution -/

/-- C5 (confirmed): for a known device whose room exists, the four effective
getters return the room's mode, static values (truncated or right-zero-padded
to the device's channel count), plan id and fast-mode type when the room is
in AUTO, and the device's own fields when the room is in MANUAL. -/
theorem effective_getters_auto_manual (s : SharedState) (id : String)
    (d : DeviceState) (r : RoomControlState)
    (hd : s.devices.lookup id = some d)
    (hr : s.rooms.lookup d.room = some r) :
    (r.control_mode = RoomControlMode.AUTO →
      s.get_effective_mode id = some r.mode ∧
      s.get_effective_static_values id =
        some (resizeTo r.static_values d.channels) ∧
      (resizeTo r.static_values d.channels).length = d.channels ∧
      s.get_effective_planned_plan id = some r.planned_plan_id ∧
      s.get_effective_fast_mode_type id = some r.fast_mode_type) ∧
    (r.control_mode = RoomControlMode.MANUAL →
      s.get_effective_mode id = some d.mode ∧
      s.get_effective_static_values id = some d.static_values ∧
      s.get_effective_planned_plan id = some d.planned_plan_id ∧
      s.get_effective_fast_mode_type id = some d.fast_mode_type) := by
  constructor
  · intro hauto
    refine ⟨?_, ?_, resizeTo_length _ _, ?_, ?_⟩ <;>
      simp [SharedState.get_effective_mode,
        SharedState.get_effective_static_values,
        SharedState.get_effective_planned_plan,
        SharedState.get_effective_fast_mode_type, hd, hr, hauto]
  · intro hman
    have hnauto : r.control_mode ≠ RoomControlMode.AUTO := by
      rw [hman]
      intro hcontra
      exact RoomControlMode.noConfusion hcontra
    refine ⟨?_, ?_, ?_, ?_⟩ <;>
      simp [SharedState.get_effective_mode,
        SharedState.get_effective_static_values,
        SharedState.get_effective_planned_plan,
        SharedState.get_effective_fast_mode_type, hd, hr, hnauto]

/-- Witness for C5 on the concrete AUTO state `sAuto`: the effective plan of
`X` is the room's plan `a` even though the device's own field says `b`. -/
theorem effective_getters_witness :
    sAuto.get_effective_mode "X" = some roomR.mode ∧
    sAuto.get_effective_planned_plan "X" = some roomR.planned_plan_id := by
  have h := (effective_getters_auto_manual sAuto "X" devX roomR
    (by decide) (by decide)).1 (by decide)
  exact ⟨h.1, h.2.2.2.1⟩

/-! ## Claim C1 — fast-streamer device selection -/

/-- C1 counterexample: in the concrete state `sFast`, device `A` is in FAST
mode with effective `fast_mode_type = UDP_REPEATER`, yet the fast-streamer
iteration sends it a v1 datagram — the claim says such a device receives
nothing. -/
theorem fast_streamer_hits_udp_repeater_device :
    "A" ∈ streamer_targets sFast ∧
    sFast.get_effective_fast_mode_type "A" = some FastModeType.UDP_REPEATER ∧
    streamer_packet sFast "A" = some [76, 69, 68, 1, 2, 0, 0] := by
  refine ⟨by decide, by decide, by decide⟩

/-- C1 (corrected): on a state whose device keys are distinct (always true of
a Python dict), the fast-streamer iteration sends a v1 datagram to exactly
the devices whose own `mode` is FAST — the effective `fast_mode_type` is not
consulted, so FAST devices in UDP_REPEATER mode are streamed to as well. -/
theorem fast_streamer_targets_iff_fast_mode (s : SharedState)
    (hnd : (s.devices.map Prod.fst).Nodup) (id : String) :
    id ∈ streamer_targets s ↔
      ∃ d, s.devices.lookup id = some d ∧ d.mode = DeviceMode.FAST := by
  unfold streamer_targets SharedState.get_devices_by_mode
  rw [List.mem_filterMap]
  constructor
  · rintro ⟨p, hp, hf⟩
    by_cases hm : p.2.mode = DeviceMode.FAST
    · rw [if_pos hm] at hf
      obtain rfl := Option.some.inj hf
      exact ⟨p.2, (lookup_eq_some_iff_of_nodup _ hnd _ _).mpr hp, hm⟩
    · rw [if_neg hm] at hf
      exact absurd hf (Option.noConfusion)
  · rintro ⟨d, hlu, hm⟩
    exact ⟨(id, d), (lookup_eq_some_iff_of_nodup _ hnd _ _).mp hlu,
      by rw [if_pos hm]⟩

/-- Witness for C1 (corrected): applying the characterization to `sFast`
shows device `A` is streamed to because its mode is FAST. -/
theorem fast_streamer_targets_witness :
    ∃ d, sFast.devices.lookup "A" = some d ∧ d.mode = DeviceMode.FAST :=
  (fast_streamer_targets_iff_fast_mode sFast (by decide) "A").mp (by decide)

/-! ## Claim C2 — which plan the planner uses -/

/-- C2 counterexample: in the concrete state `sAuto` (room AUTO with room
plan `a`, device field set to `b` afterwards), the planner builds the window
from plan `b` (all zeros, 200 ms) while the claim's effective-plan window
would come from plan `a` (all 255, 100 ms). -/
theorem planner_ignores_effective_plan :
    sAuto.get_effective_planned_plan "X" = some (some "a") ∧
    publish_plan_for_device plansAB 2 100 sAuto 0 "X" =
      some ([[0, 0, 0, 0], [0, 0, 0, 0]], 200, 0) ∧
    claimed_publish_plan_for_device plansAB 2 100 sAuto 0 "X" =
      some ([[255, 255, 255, 255], [255, 255, 255, 255]], 100, 0) ∧
    publish_plan_for_device plansAB 2 100 sAuto 0 "X" ≠
      claimed_publish_plan_for_device plansAB 2 100 sAuto 0 "X" := by
  refine ⟨by decide, by decide, by decide, by decide⟩

/-- C2 (corrected): the planner resolves the plan through
`get_device_plan` — the device's *own* `planned_plan_id`, not the effective
one — and on a missing or unassigned plan falls back to a window repeating
the device's *own* `static_values` with the configured default interval. -/
theorem planner_uses_own_plan_and_statics (plans : String → Option Plan)
    (spi default_ims : Nat) (s : SharedState) (cursor : Nat) (id : String)
    (d : DeviceState) (hlu : s.devices.lookup id = some d) :
    (∀ plan_id p, d.planned_plan_id = some plan_id → plans plan_id = some p →
      publish_plan_for_device plans spi default_ims s cursor id =
        some (get_plan_sequence spi cursor p)) ∧
    (d.planned_plan_id = none →
      publish_plan_for_device plans spi default_ims s cursor id =
        some (generate_sequence spi d.static_values, default_ims, cursor)) ∧
    (∀ plan_id, d.planned_plan_id = some plan_id → plans plan_id = none →
      publish_plan_for_device plans spi default_ims s cursor id =
        some (generate_sequence spi d.static_values, default_ims, cursor)) := by
  refine ⟨?_, ?_, ?_⟩
  · intro plan_id p hpid hp
    simp [publish_plan_for_device, hlu, hpid, hp]
  · intro hpid
    simp [publish_plan_for_device, hlu, hpid]
  · intro plan_id hpid hp
    simp [publish_plan_for_device, hlu, hpid, hp]

/-- Witness for C2 (corrected): on `sAuto`, the window for `X` is sampled
from its own plan `b`. -/
theorem planner_uses_own_plan_witness :
    publish_plan_for_device plansAB 2 100 sAuto 0 "X" =
      some (get_plan_sequence 2 0 ⟨4, 200, [[0, 0, 0, 0]]⟩) :=
  (planner_uses_own_plan_and_statics plansAB 2 100 sAuto 0 "X" devX
    (by decide)).1 "b" ⟨4, 200, [[0, 0, 0, 0]]⟩ (by decide) (by decide)

/-! ## Claim C6 — plan-window sampling -/

theorem pyRound255_le_255 (v : Nat) (h : v ≤ 100) : pyRound255 v ≤ 255 := by
  simp only [pyRound255]
  split_ifs <;> omega

/-- C6 (confirmed): for a plan with `K ≥ 1` steps whose intensities are in
[0,100] and a cursor `c`, one sampling returns `steps_per_interval` vectors,
the `i`-th being `P.steps[(c+i) mod K]` scaled entrywise by Python's
`round(v * 255 / 100)` (here `pyRound255`, producing bytes in [0,255]),
reports the plan's `interval_ms`, and leaves the cursor at
`(c + steps_per_interval) mod K`. -/
theorem plan_sequence_window_spec (spi cursor : Nat) (p : Plan)
    (hK : 1 ≤ p.steps.length)
    (hvals : ∀ st ∈ p.steps, ∀ v ∈ st, v ≤ 100) :
    (get_plan_sequence spi cursor p).1.length = spi ∧
    (get_plan_sequence spi cursor p).2.1 = p.interval_ms ∧
    (get_plan_sequence spi cursor p).2.2 = (cursor + spi) % p.steps.length ∧
    (∀ i, i < spi → (get_plan_sequence spi cursor p).1.getD i [] =
      scaleStep (p.steps.getD ((cursor + i) % p.steps.length) [])) ∧
    (∀ st ∈ (get_plan_sequence spi cursor p).1, ∀ v ∈ st, 0 ≤ v ∧ v ≤ 255) := by
  have hK0 : ¬ p.steps.length = 0 := by omega
  have hunf : get_plan_sequence spi cursor p =
      ((List.range spi).map (fun i =>
          scaleStep (p.steps.getD ((cursor + i) % p.steps.length) [])),
        p.interval_ms, (cursor + spi) % p.steps.length) := by
    simp only [get_plan_sequence, if_neg hK0]
  rw [hunf]
  refine ⟨by simp, rfl, rfl, ?_, ?_⟩
  · intro i hi
    simp [List.getD_eq_getElem?_getD, List.getElem?_map, List.getElem?_range, hi]
  · intro st hst v hv
    obtain ⟨i, _, rfl⟩ := List.mem_map.mp hst
    obtain ⟨w, hw, rfl⟩ := List.mem_map.mp hv
    have hlt : (cursor + i) % p.steps.length < p.steps.length :=
      Nat.mod_lt _ (by omega)
    have hstep : p.steps.getD ((cursor + i) % p.steps.length) [] ∈ p.steps := by
      rw [List.getD_eq_getElem p.steps [] hlt]
      exact List.getElem_mem hlt
    have hw100 := hvals _ hstep w hw
    exact ⟨Int.ofNat_nonneg _, by exact_mod_cast pyRound255_le_255 w hw100⟩

/-- Witness for C6 on spec §8 scenario 2 (`planWrap`, 10 steps per interval,
cursor 0): the cursor advances to `10 mod 3` and the second emitted vector is
step 1 scaled. -/
theorem plan_sequence_window_witness :
    (get_plan_sequence 10 0 planWrap).2.2 = (0 + 10) % planWrap.steps.length ∧
    (get_plan_sequence 10 0 planWrap).1.getD 1 [] =
      scaleStep (planWrap.steps.getD ((0 + 1) % planWrap.steps.length) []) := by
  have h := plan_sequence_window_spec 10 0 planWrap (by decide) (by decide)
  exact ⟨h.2.2.1, h.2.2.2.1 1 (by decide)⟩

/-! ## Claim C4 — value-array invariant -/

theorem devicesInv_updateAssoc (devs : List (String × DeviceState))
    (id : String) (f : DeviceState → DeviceState)
    (hf : ∀ d, DeviceInv d → DeviceInv (f d))
    (h : ∀ p ∈ devs, DeviceInv p.2) :
    ∀ p ∈ updateAssoc devs id f, DeviceInv p.2 := by
  intro p hp
  obtain ⟨q, hq, rfl⟩ := List.mem_map.mp hp
  by_cases hq1 : q.1 = id
  · rw [if_pos hq1]
    exact hf q.2 (h q hq)
  · rw [if_neg hq1]
    exact h q hq

theorem roomsInv_updateAssoc (rooms : List (String × RoomControlState))
    (name : String) (f : RoomControlState → RoomControlState)
    (hf : ∀ r, RoomInv r → RoomInv (f r))
    (h : ∀ p ∈ rooms, RoomInv p.2) :
    ∀ p ∈ updateAssoc rooms name f, RoomInv p.2 := by
  intro p hp
  obtain ⟨q, hq, rfl⟩ := List.mem_map.mp hp
  by_cases hq1 : q.1 = name
  · rw [if_pos hq1]
    exact hf q.2 (h q hq)
  · rw [if_neg hq1]
    exact h q hq

theorem stateInv_applyRoom (s : SharedState) (name : String)
    (h : StateInv s) : StateInv (s.applyRoomSettingsToDevices name) := by
  unfold SharedState.applyRoomSettingsToDevices
  rcases hlu : s.rooms.lookup name with _ | room
  · exact h
  · have hroom : RoomInv room := h.2 (name, room) (lookup_mem _ _ _ hlu)
    refine ⟨?_, h.2⟩
    intro p hp
    obtain ⟨q, hq, rfl⟩ := List.mem_map.mp hp
    have hq' := h.1 q hq
    by_cases hr : q.2.room = name
    · rw [if_pos hr]
      refine ⟨resizeTo_length _ _, hq'.2.1, ?_, hq'.2.2.2⟩
      intro v hv
      rcases resizeTo_mem _ _ _ hv with hmem | rfl
      · exact hroom v hmem
      · exact ⟨le_refl 0, by norm_num⟩
    · rw [if_neg hr]
      exact hq'

theorem stateInv_step (s : SharedState) (op : Op) (h : StateInv s) :
    StateInv (step s op) := by
  cases op with
  | setDeviceMode id m =>
    simp only [step, stepB, SharedState.set_device_mode]
    rcases hlu : s.devices.lookup id with _ | d <;> simp only [hlu]
    · exact h
    · exact ⟨devicesInv_updateAssoc s.devices id
        (fun d => { d with mode := m }) (fun d hd => hd) h.1, h.2⟩
  | setStaticValues id values =>
    simp only [step, stepB, SharedState.set_static_values]
    rcases hlu : s.devices.lookup id with _ | d <;> simp only [hlu]
    · exact h
    · refine ⟨devicesInv_updateAssoc s.devices id
        (fun d => { d with static_values := clampResize values d.channels })
        ?_ h.1, h.2⟩
      intro d hd
      exact ⟨clampResize_length _ _, hd.2.1,
        fun v hv => clampResize_mem _ _ _ hv, hd.2.2.2⟩
  | setFastValues id values =>
    simp only [step, stepB, SharedState.set_fast_values]
    rcases hlu : s.devices.lookup id with _ | d <;> simp only [hlu]
    · exact h
    · refine ⟨devicesInv_updateAssoc s.devices id
        (fun d => { d with fast_values := clampResize values d.channels })
        ?_ h.1, h.2⟩
      intro d hd
      exact ⟨hd.1, clampResize_length _ _, hd.2.2.1,
        fun v hv => clampResize_mem _ _ _ hv⟩
  | setDevicePlan id plan =>
    simp only [step, stepB, SharedState.set_device_plan]
    rcases hlu : s.devices.lookup id with _ | d <;> simp only [hlu]
    · exact h
    · exact ⟨devicesInv_updateAssoc s.devices id
        (fun d => { d with planned_plan_id := plan }) (fun d hd => hd) h.1, h.2⟩
  | setDeviceFastModeType id t =>
    simp only [step, stepB, SharedState.set_device_fast_mode_type]
    rcases hlu : s.devices.lookup id with _ | d <;> simp only [hlu]
    · exact h
    · exact ⟨devicesInv_updateAssoc s.devices id
        (fun d => { d with fast_mode_type := t }) (fun d hd => hd) h.1, h.2⟩
  | updateHeartbeat id now =>
    simp only [step, stepB, SharedState.update_heartbeat]
    rcases hlu : s.devices.lookup id with _ | d <;> simp only [hlu]
    · exact h
    · split <;>
        exact ⟨devicesInv_updateAssoc s.devices id
          (fun d => { d with last_heartbeat := now, online := true })
          (fun d hd => hd) h.1, h.2⟩
  | setRoomControlMode name cm =>
    simp only [step, stepB, SharedState.set_room_control_mode]
    rcases hlu : s.rooms.lookup name with _ | r <;> simp only [hlu]
    · exact h
    · have h1 : StateInv { s with
          rooms := updateAssoc s.rooms name
            (fun r => { r with control_mode := cm }) } :=
        ⟨h.1, roomsInv_updateAssoc s.rooms name
          (fun r => { r with control_mode := cm }) (fun r hr => hr) h.2⟩
      split
      · exact ⟨(stateInv_applyRoom _ _ h1).1, (stateInv_applyRoom _ _ h1).2⟩
      · exact ⟨h1.1, h1.2⟩
  | setRoomMode name m =>
    simp only [step, stepB, SharedState.set_room_mode]
    rcases hlu : s.rooms.lookup name with _ | r <;> simp only [hlu]
    · exact h
    · have h1 : StateInv { s with
          rooms := updateAssoc s.rooms name (fun r => { r with mode := m }) } :=
        ⟨h.1, roomsInv_updateAssoc s.rooms name
          (fun r => { r with mode := m }) (fun r hr => hr) h.2⟩
      split
      · exact ⟨(stateInv_applyRoom _ _ h1).1, (stateInv_applyRoom _ _ h1).2⟩
      · exact ⟨h1.1, h1.2⟩
  | setRoomStaticValues name values =>
    simp only [step, stepB, SharedState.set_room_static_values]
    rcases hlu : s.rooms.lookup name with _ | r <;> simp only [hlu]
    · exact h
    · have h1 : StateInv { s with
          rooms := updateAssoc s.rooms name
            (fun r => { r with static_values := values.map clamp255 }) } := by
        refine ⟨h.1, roomsInv_updateAssoc s.rooms name
          (fun r => { r with static_values := values.map clamp255 }) ?_ h.2⟩
        intro r _ v hv
        obtain ⟨w, _, rfl⟩ := List.mem_map.mp hv
        exact ⟨clamp255_nonneg w, clamp255_le w⟩
      split
      · exact ⟨(stateInv_applyRoom _ _ h1).1, (stateInv_applyRoom _ _ h1).2⟩
      · exact ⟨h1.1, h1.2⟩
  | setRoomPlannedPlan name plan =>
    simp only [step, stepB, SharedState.set_room_planned_plan]
    rcases hlu : s.rooms.lookup name with _ | r <;> simp only [hlu]
    · exact h
    · have h1 : StateInv { s with
          rooms := updateAssoc s.rooms name
            (fun r => { r with planned_plan_id := plan }) } :=
        ⟨h.1, roomsInv_updateAssoc s.rooms name
          (fun r => { r with planned_plan_id := plan }) (fun r hr => hr) h.2⟩
      split
      · exact ⟨(stateInv_applyRoom _ _ h1).1, (stateInv_applyRoom _ _ h1).2⟩
      · exact ⟨h1.1, h1.2⟩
  | setRoomFastModeType name t =>
    simp only [step, stepB, SharedState.set_room_fast_mode_type]
    rcases hlu : s.rooms.lookup name with _ | r <;> simp only [hlu]
    · exact h
    · have h1 : StateInv { s with
          rooms := updateAssoc s.rooms name
            (fun r => { r with fast_mode_type := t }) } :=
        ⟨h.1, roomsInv_updateAssoc s.rooms name
          (fun r => { r with fast_mode_type := t }) (fun r hr => hr) h.2⟩
      split
      · exact ⟨(stateInv_applyRoom _ _ h1).1, (stateInv_applyRoom _ _ h1).2⟩
      · exact ⟨h1.1, h1.2⟩

theorem stateInv_run (s : SharedState) (ops : List Op) (h : StateInv s) :
    StateInv (run s ops) := by
  induction ops generalizing s with
  | nil => exact h
  | cons op rest ih => exact ih (step s op) (stateInv_step s op h)

theorem stateInv_init (cfg : List RoomConfigM) (timeout : Rat) :
    StateInv (initialize_from_config cfg timeout) := by
  constructor
  · intro p hp
    simp only [initialize_from_config] at hp
    obtain ⟨r, _, hp2⟩ := List.mem_flatMap.mp hp
    obtain ⟨d, _, rfl⟩ := List.mem_map.mp hp2
    refine ⟨by simp, by simp, ?_, ?_⟩ <;>
      · intro v hv
        rcases List.eq_of_mem_replicate hv with rfl
        exact ⟨le_refl 0, by norm_num⟩
  · intro p hp
    simp only [initialize_from_config] at hp
    obtain ⟨r, _, rfl⟩ := List.mem_map.mp hp
    intro v hv
    rcases List.eq_of_mem_replicate hv with rfl
    exact ⟨le_refl 0, by norm_num⟩

/-- C4 (confirmed): after any finite sequence of state operations starting
from a config-initialized state, every device has
`len(static_values) = len(fast_values) = channels` with every entry in
[0,255]. -/
theorem device_value_arrays_invariant (cfg : List RoomConfigM) (timeout : Rat)
    (ops : List Op) (p : String × DeviceState)
    (hp : p ∈ (run (initialize_from_config cfg timeout) ops).devices) :
    p.2.static_values.length = p.2.channels ∧
    p.2.fast_values.length = p.2.channels ∧
    (∀ v ∈ p.2.static_values, 0 ≤ v ∧ v ≤ 255) ∧
    (∀ v ∈ p.2.fast_values, 0 ≤ v ∧ v ≤ 255) :=
  (stateInv_run _ ops (stateInv_init cfg timeout)).1 p hp

/-- Witness for C4: after `set_static_values("A", [300, -5, 7])` on the
initialized `cfgA` state, device `A` is exactly `devW` (clamped to
`[255, 0]`) and its static array length equals its channel count. -/
theorem device_value_arrays_invariant_witness :
    ("A", devW) ∈ (run (initialize_from_config cfgA 10)
        [Op.setStaticValues "A" [300, -5, 7]]).devices ∧
    devW.static_values.length = devW.channels :=
  ⟨by decide,
    (device_value_arrays_invariant cfgA 10 [Op.setStaticValues "A" [300, -5, 7]]
      ("A", devW) (by decide)).1⟩

/-! ## Claim C8 — codec round-trip -/

theorem clamp_byte_toNat (b : Nat) (h : b < 256) :
    (clamp255 (Int.ofNat b)).toNat = b := by
  simp only [clamp255, Int.ofNat_eq_coe]
  omega

theorem map_clamp_bytes (vs : List Nat) (h : ∀ b ∈ vs, b < 256) :
    (vs.map Int.ofNat).map (fun v => (clamp255 v).toNat) = vs := by
  induction vs with
  | nil => rfl
  | cons b t ih =>
    simp only [List.map_cons]
    rw [clamp_byte_toNat b (h b (List.mem_cons_self _ _)),
      ih (fun x hx => h x (List.mem_cons_of_mem _ hx))]

theorem toNat_of_streamIdOfNat (a : Nat) (k : StreamID)
    (h : streamIdOfNat a = some k) : k.toNat = a := by
  unfold streamIdOfNat at h
  split_ifs at h with h1 h2 h3
  · obtain rfl := Option.some.inj h
    rw [h1]
    rfl
  · obtain rfl := Option.some.inj h
    rw [h2]
    rfl
  · obtain rfl := Option.some.inj h
    rw [h3]
    rfl

theorem dictInsert_fresh (l : List (StreamID × List Nat)) (k : StreamID)
    (v : List Nat) (h : ∀ q ∈ l, q.1 ≠ k) :
    dictInsert l k v = l ++ [(k, v)] := by
  have hany : l.any (fun p => p.1 = k) = false := by
    rw [List.any_eq_false]
    intro q hq
    simp [h q hq]
  simp [dictInsert, hany]

theorem parseV2Loop_encoded :
    ∀ (blocks : List (Nat × List Nat)) (acc : List (StreamID × List Nat)),
      (∀ p ∈ blocks, (streamIdOfNat p.1).isSome) →
      (blocks.map Prod.fst).Nodup →
      (∀ p ∈ blocks, ∀ q ∈ acc, streamIdOfNat p.1 ≠ some q.1) →
      parseV2Loop blocks.length
          (blocks.flatMap (fun p => p.1 :: p.2.length :: p.2)) acc =
        some (acc ++ blocks.map (fun p =>
          ((streamIdOfNat p.1).getD StreamID.CH4_V1, p.2)))
  | [], acc, _, _, _ => by simp [parseV2Loop]
  | (sid, vals) :: rest, acc, hknown, hnodup, hfresh => by
    obtain ⟨k, hk⟩ := Option.isSome_iff_exists.mp
      (hknown _ (List.mem_cons_self _ _))
    rw [List.map_cons, List.nodup_cons] at hnodup
    have henc : ((sid, vals) :: rest).flatMap
        (fun p => p.1 :: p.2.length :: p.2) =
        sid :: vals.length ::
          (vals ++ rest.flatMap (fun p => p.1 :: p.2.length :: p.2)) := by
      simp [List.flatMap_cons]
    rw [henc, List.length_cons, parseV2Loop]
    have hnlt : ¬ ((vals ++ rest.flatMap
        (fun p => p.1 :: p.2.length :: p.2)).length < vals.length) := by
      simp
    rw [if_neg hnlt, hk, List.take_left, List.drop_left]
    have hfreshk : ∀ q ∈ acc, q.1 ≠ k := by
      intro q hq heq
      exact hfresh _ (List.mem_cons_self _ _) q hq (heq ▸ hk)
    show parseV2Loop rest.length
        (rest.flatMap fun p => p.1 :: p.2.length :: p.2)
        (dictInsert acc k vals) =
      some (acc ++ ((sid, vals) :: rest).map
        (fun p => ((streamIdOfNat p.1).getD StreamID.CH4_V1, p.2)))
    rw [dictInsert_fresh acc k vals hfreshk]
    rw [parseV2Loop_encoded rest (acc ++ [(k, vals)])
      (fun p hp => hknown p (List.mem_cons_of_mem _ hp)) hnodup.2 ?_]
    · simp [hk, List.append_assoc]
    · intro p hp q hq
      rcases List.mem_append.mp hq with hq' | hq'
      · exact hfresh p (List.mem_cons_of_mem _ hp) q hq'
      · obtain rfl := List.mem_singleton.mp hq'
        intro hcontra
        have hp1 : p.1 = sid := by
          rw [← toNat_of_streamIdOfNat p.1 k hcontra,
            toNat_of_streamIdOfNat sid k hk]
        exact hnodup.1 (hp1 ▸ List.mem_map.mpr ⟨p, hp, rfl⟩)

theorem encode_streams_eq :
    ∀ (blocks : List (Nat × List Nat)),
      (∀ p ∈ blocks, (streamIdOfNat p.1).isSome ∧ ∀ b ∈ p.2, b < 256) →
      ((blocks.map (fun p =>
          ((streamIdOfNat p.1).getD StreamID.CH4_V1, p.2))).map
          (fun p => (p.1, p.2.map Int.ofNat))).flatMap
          (fun p => p.1.toNat :: p.2.length ::
            p.2.map (fun v => (clamp255 v).toNat)) =
        blocks.flatMap (fun p => p.1 :: p.2.length :: p.2)
  | [], _ => rfl
  | (sid, vals) :: rest, h => by
    obtain ⟨k, hk⟩ := Option.isSome_iff_exists.mp
      (h _ (List.mem_cons_self _ _)).1
    simp only [List.map_cons, List.flatMap_cons]
    rw [encode_streams_eq rest (fun p hp => h p (List.mem_cons_of_mem _ hp))]
    simp only [hk, Option.getD_some, List.length_map]
    rw [toNat_of_streamIdOfNat sid k hk,
      map_clamp_bytes vals (h _ (List.mem_cons_self _ _)).2]

/-- C8 counterexample: the byte string `pktUnknownStream` is a well-formed v2
packet (its first block carries stream id 9, which §4.A says is skipped but
consumed), yet decoding and re-encoding drops that block and yields
`pktUnknownStreamReenc ≠ pktUnknownStream`, so `encode(decode(bytes))` is not
`bytes` for every well-formed packet. -/
theorem codec_roundtrip_counterexample :
    IsV2Packet pktUnknownStream ∧
    (parse_led_packet pktUnknownStream).map encode_parsed =
      some pktUnknownStreamReenc ∧
    pktUnknownStreamReenc ≠ pktUnknownStream :=
  ⟨⟨[(9, [7]), (1, [10, 20, 30, 40])], by decide, by decide, by decide⟩,
    by decide, by decide⟩

/-- C8 (corrected): the round trip `encode(decode(bytes)) = bytes` holds for
well-formed v1 packets with at least one value byte (total length ≥ 6), and
for v2 packets whose blocks carry pairwise distinct *known* stream ids
(1, 2, 3) and at least one block; v2 packets with unknown stream ids decode
with those blocks dropped (so re-encoding shrinks them), and 0-channel v1
and 0-stream v2 packets are rejected by the decoder's 6-byte minimum. -/
theorem codec_roundtrip_amended :
    (∀ data : List Nat, IsV1Packet data → 6 ≤ data.length →
      (parse_led_packet data).map encode_parsed = some data) ∧
    (∀ blocks : List (Nat × List Nat),
      (∀ p ∈ blocks, (streamIdOfNat p.1).isSome ∧ ∀ b ∈ p.2, b < 256) →
      (blocks.map Prod.fst).Nodup → 1 ≤ blocks.length →
      (parse_led_packet (76 :: 69 :: 68 :: 2 :: blocks.length ::
          blocks.flatMap (fun p => p.1 :: p.2.length :: p.2))).map
          encode_parsed =
        some (76 :: 69 :: 68 :: 2 :: blocks.length ::
          blocks.flatMap (fun p => p.1 :: p.2.length :: p.2))) := by
  constructor
  · rintro data ⟨values, hbytes, _, rfl⟩ hlen
    have hne : values.isEmpty = false := by
      rcases values with _ | ⟨b, t⟩
      · simp at hlen
      · rfl
    have hparse : parse_led_packet (76 :: 69 :: 68 :: 1 :: values.length :: values)
        = some (ParsedPacket.v1 values) := by
      simp [parse_led_packet, hne, List.take_length]
    rw [hparse, Option.map_some']
    show some (build_led_v1_packet (values.map Int.ofNat)) = _
    unfold build_led_v1_packet
    rw [List.length_map, map_clamp_bytes values hbytes]
  · intro blocks h hnodup hlen
    have hne : (blocks.flatMap (fun p => p.1 :: p.2.length :: p.2)).isEmpty
        = false := by
      rcases blocks with _ | ⟨⟨sid, vals⟩, rest⟩
      · simp at hlen
      · rfl
    have hloop := parseV2Loop_encoded blocks []
      (fun p hp => (h p hp).1) hnodup (by simp)
    have hparse : parse_led_packet (76 :: 69 :: 68 :: 2 :: blocks.length ::
        blocks.flatMap (fun p => p.1 :: p.2.length :: p.2))
        = some (ParsedPacket.v2 (blocks.map
          (fun p => ((streamIdOfNat p.1).getD StreamID.CH4_V1, p.2)))) := by
      simp [parse_led_packet, hne, hloop]
    rw [hparse, Option.map_some']
    show some (build_led_v2_packet ((blocks.map
        (fun p => ((streamIdOfNat p.1).getD StreamID.CH4_V1, p.2))).map
        (fun p => (p.1, p.2.map Int.ofNat)))) = _
    unfold build_led_v2_packet
    rw [encode_streams_eq blocks h]
    simp

/-- Witness for C8 (corrected): the 2-channel v1 packet with values 7, 8
decodes and re-encodes to itself. -/
theorem codec_roundtrip_witness :
    (parse_led_packet [76, 69, 68, 1, 2, 7, 8]).map encode_parsed =
      some [76, 69, 68, 1, 2, 7, 8] :=
  codec_roundtrip_amended.1 [76, 69, 68, 1, 2, 7, 8]
    ⟨[7, 8], by decide, by decide, by decide⟩ (by decide)

end LedHub
